import Mathlib

/-!
Verification of the `@pleaseai/config` package: configuration schema,
validator (Zod-based defaulting semantics), loader, generator, and
predicate helpers.

The data model and the validation semantics are translated from
`src/schema.ts` (as compiled into the distributed bundle) and from
`src/loader.ts` / `src/generator.ts`.  The `integrations` section is not
present in the available compiled schema; it is modelled from the spec
(and pinned down by the package's own integration tests).
-/

set_option maxRecDepth 4000

namespace PleaseConfig

/-- Language options for bot responses (`z.enum(["ko", "en"])`). -/
inductive Language where
  | ko
  | en
deriving DecidableEq, Repr

/-- Severity levels for review comments (`z.enum(["LOW", "MEDIUM", "HIGH"])`). -/
inductive SeverityLevel where
  | LOW
  | MEDIUM
  | HIGH
deriving DecidableEq, Repr

/-- Pull request opened event configuration. -/
structure PullRequestOpenedConfig where
  help : Bool
  summary : Bool
  code_review : Bool
  include_drafts : Bool
deriving DecidableEq, Repr

/-- Code review configuration. -/
structure CodeReviewConfig where
  disable : Bool
  comment_severity_threshold : SeverityLevel
  max_review_comments : Int
  pull_request_opened : PullRequestOpenedConfig
deriving DecidableEq, Repr

/-- `issue_opened` sub-object of the issue workflow configuration. -/
structure IssueOpenedConfig where
  post_dev_help : Bool
deriving DecidableEq, Repr

/-- `triage` sub-object of the issue workflow configuration. -/
structure TriageConfig where
  auto : Bool
  manual : Bool
  update_issue_type : Bool
deriving DecidableEq, Repr

/-- `investigate` sub-object of the issue workflow configuration. -/
structure InvestigateConfig where
  enabled : Bool
  org_members_only : Bool
  auto_on_bug_label : Bool
deriving DecidableEq, Repr

/-- `fix` sub-object of the issue workflow configuration. -/
structure FixConfig where
  enabled : Bool
  org_members_only : Bool
  require_investigation : Bool
  auto_create_pr : Bool
  auto_run_tests : Bool
deriving DecidableEq, Repr

/-- Issue workflow configuration (triage → investigate → fix). -/
structure IssueWorkflowConfig where
  disable : Bool
  issue_opened : IssueOpenedConfig
  triage : TriageConfig
  investigate : InvestigateConfig
  fix : FixConfig
deriving DecidableEq, Repr

/-- Code workspace configuration. -/
structure CodeWorkspaceConfig where
  enabled : Bool
deriving DecidableEq, Repr

/-- Modelled from the spec: `notion.{enabled,page_id?,database_id?}`
(enabled default false; ids optional, absent unless set).  The current
`src/schema.ts` is absent from the available sources; shape is pinned by
the package's integration tests. -/
structure NotionConfig where
  enabled : Bool
  page_id : Option String
  database_id : Option String
deriving DecidableEq, Repr

/-- Modelled from the spec: `slack.{enabled,webhook_url?,channel?}`
(enabled default false; fields optional). -/
structure SlackConfig where
  enabled : Bool
  webhook_url : Option String
  channel : Option String
deriving DecidableEq, Repr

/-- Modelled from the spec: IntegrationsConfig with `notion` and `slack`
sub-sections, always present after validation. -/
structure IntegrationsConfig where
  notion : NotionConfig
  slack : SlackConfig
deriving DecidableEq, Repr

/-- The fully-validated configuration value (`Config` in `src/schema.ts`). -/
structure Config where
  code_review : CodeReviewConfig
  issue_workflow : IssueWorkflowConfig
  code_workspace : CodeWorkspaceConfig
  integrations : IntegrationsConfig
  ignore_patterns : List String
  language : Language
deriving DecidableEq, Repr

/-- A generic parsed document (the result of `yaml.load` / `JSON.parse`):
null, booleans, numbers, strings, arrays, objects.  Numbers are modelled
as integers, which suffices for every numeric field of this schema. -/
inductive Value where
  | null : Value
  | bool : Bool → Value
  | num : Int → Value
  | str : String → Value
  | arr : List Value → Value
  | obj : List (String × Value) → Value
deriving Repr

/-- Key lookup in a parsed object; `none` models an absent key
(JavaScript `undefined` when reading a missing property). -/
def getField (fields : List (String × Value)) (k : String) : Option Value :=
  match fields with
  | [] => none
  | (k', v) :: rest => if k' = k then some v else getField rest k

/-- `z.boolean()`: accepts exactly booleans. -/
def parseBool : Value → Except String Bool
  | .bool b => .ok b
  | _ => .error "expected boolean"

/-- `z.number()`: accepts exactly numbers (no range restriction). -/
def parseNum : Value → Except String Int
  | .num n => .ok n
  | _ => .error "expected number"

/-- `z.string()`: accepts exactly strings. -/
def parseStr : Value → Except String String
  | .str s => .ok s
  | _ => .error "expected string"

/-- Element-wise parse for `z.array(z.string())`. -/
def parseStrList : List Value → Except String (List String)
  | [] => .ok []
  | v :: rest => do
    let s ← parseStr v
    let ss ← parseStrList rest
    .ok (s :: ss)

/-- `z.array(z.string())`: accepts exactly arrays of strings. -/
def parseStrArray : Value → Except String (List String)
  | .arr xs => parseStrList xs
  | _ => .error "expected array"

/-- `Language` enum parse: case-sensitive exact match. -/
def parseLanguage : Value → Except String Language
  | .str "ko" => .ok .ko
  | .str "en" => .ok .en
  | _ => .error "invalid language"

/-- `SeverityLevel` enum parse: case-sensitive exact match. -/
def parseSeverity : Value → Except String SeverityLevel
  | .str "LOW" => .ok .LOW
  | .str "MEDIUM" => .ok .MEDIUM
  | .str "HIGH" => .ok .HIGH
  | _ => .error "invalid severity"

/-- Zod `.default(d)` (also `.optional().default(d)`) field semantics:
an absent key (JavaScript `undefined`) yields the default; a present
value — including `null` — is parsed by the inner schema. -/
def parseFieldD (fields : List (String × Value)) (k : String)
    (p : Value → Except String α) (d : α) : Except String α :=
  match getField fields k with
  | none => .ok d
  | some v => p v

/-- Zod `.optional()` field semantics (no default): absent yields
`none`; a present value — including `null` — is parsed by the inner
schema. -/
def parseFieldOpt (fields : List (String × Value)) (k : String)
    (p : Value → Except String α) : Except String (Option α) :=
  match getField fields k with
  | none => .ok none
  | some v => (p v).map some

/-- `PullRequestOpenedConfigSchema.parse`. -/
def PullRequestOpenedConfigSchema.parse : Value → Except String PullRequestOpenedConfig
  | .obj fs => do
    let help ← parseFieldD fs "help" parseBool false
    let summary ← parseFieldD fs "summary" parseBool true
    let code_review ← parseFieldD fs "code_review" parseBool true
    let include_drafts ← parseFieldD fs "include_drafts" parseBool true
    .ok ⟨help, summary, code_review, include_drafts⟩
  | _ => .error "expected object"

/-- Section-level default for `pull_request_opened`. -/
def defaultPullRequestOpened : PullRequestOpenedConfig :=
  ⟨false, true, true, true⟩

/-- `CodeReviewConfigSchema.parse`. -/
def CodeReviewConfigSchema.parse : Value → Except String CodeReviewConfig
  | .obj fs => do
    let disable ← parseFieldD fs "disable" parseBool false
    let sev ← parseFieldD fs "comment_severity_threshold" parseSeverity .MEDIUM
    let maxc ← parseFieldD fs "max_review_comments" parseNum (-1)
    let pro ← parseFieldD fs "pull_request_opened" PullRequestOpenedConfigSchema.parse
      defaultPullRequestOpened
    .ok ⟨disable, sev, maxc, pro⟩
  | _ => .error "expected object"

/-- Section-level default for `code_review`. -/
def defaultCodeReview : CodeReviewConfig :=
  ⟨false, .MEDIUM, -1, defaultPullRequestOpened⟩

/-- `issue_opened` sub-schema parse. -/
def IssueOpenedConfigSchema.parse : Value → Except String IssueOpenedConfig
  | .obj fs => do
    let p ← parseFieldD fs "post_dev_help" parseBool true
    .ok ⟨p⟩
  | _ => .error "expected object"

/-- `triage` sub-schema parse. -/
def TriageConfigSchema.parse : Value → Except String TriageConfig
  | .obj fs => do
    let a ← parseFieldD fs "auto" parseBool true
    let m ← parseFieldD fs "manual" parseBool true
    let u ← parseFieldD fs "update_issue_type" parseBool true
    .ok ⟨a, m, u⟩
  | _ => .error "expected object"

/-- `investigate` sub-schema parse. -/
def InvestigateConfigSchema.parse : Value → Except String InvestigateConfig
  | .obj fs => do
    let e ← parseFieldD fs "enabled" parseBool true
    let o ← parseFieldD fs "org_members_only" parseBool true
    let b ← parseFieldD fs "auto_on_bug_label" parseBool false
    .ok ⟨e, o, b⟩
  | _ => .error "expected object"

/-- `fix` sub-schema parse. -/
def FixConfigSchema.parse : Value → Except String FixConfig
  | .obj fs => do
    let e ← parseFieldD fs "enabled" parseBool true
    let o ← parseFieldD fs "org_members_only" parseBool true
    let r ← parseFieldD fs "require_investigation" parseBool false
    let c ← parseFieldD fs "auto_create_pr" parseBool true
    let t ← parseFieldD fs "auto_run_tests" parseBool true
    .ok ⟨e, o, r, c, t⟩
  | _ => .error "expected object"

/-- `IssueWorkflowConfigSchema.parse`. -/
def IssueWorkflowConfigSchema.parse : Value → Except String IssueWorkflowConfig
  | .obj fs => do
    let disable ← parseFieldD fs "disable" parseBool false
    let io ← parseFieldD fs "issue_opened" IssueOpenedConfigSchema.parse ⟨true⟩
    let tr ← parseFieldD fs "triage" TriageConfigSchema.parse ⟨true, true, true⟩
    let inv ← parseFieldD fs "investigate" InvestigateConfigSchema.parse ⟨true, true, false⟩
    let fx ← parseFieldD fs "fix" FixConfigSchema.parse ⟨true, true, false, true, true⟩
    .ok ⟨disable, io, tr, inv, fx⟩
  | _ => .error "expected object"

/-- Section-level default for `issue_workflow`. -/
def defaultIssueWorkflow : IssueWorkflowConfig :=
  ⟨false, ⟨true⟩, ⟨true, true, true⟩, ⟨true, true, false⟩, ⟨true, true, false, true, true⟩⟩

/-- `CodeWorkspaceConfigSchema.parse`. -/
def CodeWorkspaceConfigSchema.parse : Value → Except String CodeWorkspaceConfig
  | .obj fs => do
    let e ← parseFieldD fs "enabled" parseBool true
    .ok ⟨e⟩
  | _ => .error "expected object"

/-- Modelled from the spec: parse of the `notion` sub-section
(`enabled` default false, `page_id` and `database_id` optional). -/
def NotionConfigSchema.parse : Value → Except String NotionConfig
  | .obj fs => do
    let e ← parseFieldD fs "enabled" parseBool false
    let p ← parseFieldOpt fs "page_id" parseStr
    let d ← parseFieldOpt fs "database_id" parseStr
    .ok ⟨e, p, d⟩
  | _ => .error "expected object"

/-- Modelled from the spec: parse of the `slack` sub-section
(`enabled` default false, `webhook_url` and `channel` optional). -/
def SlackConfigSchema.parse : Value → Except String SlackConfig
  | .obj fs => do
    let e ← parseFieldD fs "enabled" parseBool false
    let w ← parseFieldOpt fs "webhook_url" parseStr
    let c ← parseFieldOpt fs "channel" parseStr
    .ok ⟨e, w, c⟩
  | _ => .error "expected object"

/-- Default for the `notion` sub-section. -/
def defaultNotion : NotionConfig := ⟨false, none, none⟩

/-- Default for the `slack` sub-section. -/
def defaultSlack : SlackConfig := ⟨false, none, none⟩

/-- Section-level default for `integrations`. -/
def defaultIntegrations : IntegrationsConfig := ⟨defaultNotion, defaultSlack⟩

/-- Modelled from the spec: parse of the `integrations` section, each
sub-section defaulting when absent. -/
def IntegrationsConfigSchema.parse : Value → Except String IntegrationsConfig
  | .obj fs => do
    let n ← parseFieldD fs "notion" NotionConfigSchema.parse defaultNotion
    let s ← parseFieldD fs "slack" SlackConfigSchema.parse defaultSlack
    .ok ⟨n, s⟩
  | _ => .error "expected object"

/-- `ConfigSchema.parse`: the Validator.  Each optional section defaults
when absent; unknown keys are ignored ($strip); a non-object document is
rejected. -/
def ConfigSchema.parse : Value → Except String Config
  | .obj fs => do
    let cr ← parseFieldD fs "code_review" CodeReviewConfigSchema.parse defaultCodeReview
    let iw ← parseFieldD fs "issue_workflow" IssueWorkflowConfigSchema.parse defaultIssueWorkflow
    let cw ← parseFieldD fs "code_workspace" CodeWorkspaceConfigSchema.parse ⟨true⟩
    let ints ← parseFieldD fs "integrations" IntegrationsConfigSchema.parse defaultIntegrations
    let ip ← parseFieldD fs "ignore_patterns" parseStrArray []
    let lang ← parseFieldD fs "language" parseLanguage .ko
    .ok ⟨cr, iw, cw, ints, ip, lang⟩
  | _ => .error "expected object"

/-- `DEFAULT_CONFIG` from `src/schema.ts` (the `integrations` entry is
modelled from the spec and the package's integration tests). -/
def DEFAULT_CONFIG : Config :=
  ⟨defaultCodeReview, defaultIssueWorkflow, ⟨true⟩, defaultIntegrations, [], .ko⟩

/-! ## Loader (`src/loader.ts`)

File-system and YAML effects are modelled explicitly: the state of the
conventional config file is `absent`, or `present` with the outcome of
reading-and-parsing its text (a parse error, or a parsed document). -/

/-- State of `<repoPath>/.please/config.yml`: missing, present but
syntactically malformed (`yaml.load` throws with a message), or present
and parsed into a document. -/
inductive FileState where
  | absent : FileState
  | present : Except String Value → FileState

/-- `path.join(repoPath, '.please', 'config.yml')`. -/
def configPathOf (repoPath : String) : String :=
  repoPath ++ "/.please/config.yml"

/-- `loadConfig` (`loadFromFile`): default config when the file is
absent; otherwise parse then validate, wrapping any failure in an error
naming the resolved path and the underlying message. -/
def loadConfig (repoPath : String) (file : FileState) : Except String Config :=
  match file with
  | .absent => .ok DEFAULT_CONFIG
  | .present (.error msg) =>
    .error ("Failed to load config from " ++ configPathOf repoPath ++ ": " ++ msg)
  | .present (.ok raw) =>
    match ConfigSchema.parse raw with
    | .ok c => .ok c
    | .error msg =>
      .error ("Failed to load config from " ++ configPathOf repoPath ++ ": " ++ msg)

/-- Outcome of the remote `octokit.repos.getContent` call plus the
subsequent base64-decode and YAML parse: the request may throw (with an
optional HTTP status, 404 meaning not-found), return a response without
usable `content` (e.g. a directory), or return content whose decoding
and parsing yields an error or a document. -/
inductive RemoteFetch where
  | failure : Option Nat → RemoteFetch
  | noContent : RemoteFetch
  | content : Except String Value → RemoteFetch

/-- `loadConfigFromGitHub` (`loadFromRemote`): every failure path —
thrown request error (404 or otherwise), missing content, decode/parse
failure, validation failure — is caught and yields `DEFAULT_CONFIG`;
the return type carries no error at all. -/
def loadConfigFromGitHub (fetch : RemoteFetch) : Config :=
  match fetch with
  | .failure _ => DEFAULT_CONFIG
  | .noContent => DEFAULT_CONFIG
  | .content (.error _) => DEFAULT_CONFIG
  | .content (.ok raw) =>
    match ConfigSchema.parse raw with
    | .ok c => c
    | .error _ => DEFAULT_CONFIG

/-- `isCodeReviewDisabled`. -/
def isCodeReviewDisabled (config : Config) : Bool :=
  config.code_review.disable

/-- `getLanguage`. -/
def getLanguage (config : Config) : Language :=
  config.language

/-- `shouldReviewPR`. -/
def shouldReviewPR (config : Config) (isDraft : Bool) : Bool :=
  if isCodeReviewDisabled config then
    false
  else if isDraft && !config.code_review.pull_request_opened.include_drafts then
    false
  else
    config.code_review.pull_request_opened.code_review

/-- `isAutoTriageEnabled`. -/
def isAutoTriageEnabled (config : Config) : Bool :=
  !config.issue_workflow.disable && config.issue_workflow.triage.auto

/-- `isManualTriageEnabled`. -/
def isManualTriageEnabled (config : Config) : Bool :=
  !config.issue_workflow.disable && config.issue_workflow.triage.manual

/-- `shouldUpdateIssueType`. -/
def shouldUpdateIssueType (config : Config) : Bool :=
  config.issue_workflow.triage.update_issue_type

/-- `isInvestigateEnabled`. -/
def isInvestigateEnabled (config : Config) : Bool :=
  !config.issue_workflow.disable && config.issue_workflow.investigate.enabled

/-- `shouldAutoInvestigateOnBugLabel`. -/
def shouldAutoInvestigateOnBugLabel (config : Config) : Bool :=
  isInvestigateEnabled config && config.issue_workflow.investigate.auto_on_bug_label

/-- `isFixEnabled`. -/
def isFixEnabled (config : Config) : Bool :=
  !config.issue_workflow.disable && config.issue_workflow.fix.enabled

/-! ## Generator (`src/generator.ts`) -/

/-- `GenerateConfigOptions`: every field optional. -/
structure GenerateConfigOptions where
  language : Option Language := none
  enableCodeReview : Option Bool := none
  enableIssueWorkflow : Option Bool := none
deriving DecidableEq, Repr

/-- `generateConfig`: spread of `DEFAULT_CONFIG` with `language`
(`options.language ?? DEFAULT_CONFIG.language`) and the two `disable`
flags (`options.enableX === false`) overridden. -/
def generateConfig (options : GenerateConfigOptions) : Config :=
  { DEFAULT_CONFIG with
    language := options.language.getD DEFAULT_CONFIG.language
    code_review := { DEFAULT_CONFIG.code_review with
      disable := options.enableCodeReview == some false }
    issue_workflow := { DEFAULT_CONFIG.issue_workflow with
      disable := options.enableIssueWorkflow == some false } }

/-- String form of a `Language` value as serialized. -/
def languageStr : Language → String
  | .ko => "ko"
  | .en => "en"

/-- String form of a `SeverityLevel` value as serialized. -/
def severityStr : SeverityLevel → String
  | .LOW => "LOW"
  | .MEDIUM => "MEDIUM"
  | .HIGH => "HIGH"

/-- Key/value entries contributed by an optional string field: present
exactly when the field is set (absent fields are not serialized). -/
def optEntry (k : String) : Option String → List (String × Value)
  | none => []
  | some s => [(k, .str s)]

/-- Models `yaml.dump` followed by `yaml.load` on a `Config` value: the
generic document the serialized text parses back to.  `js-yaml` with
`sortKeys: false` emits keys in declaration order and round-trips plain
booleans, integers, strings, string arrays and nested mappings
faithfully, so dump-then-parse is the identity up to this document. -/
def dumpConfig (c : Config) : Value :=
  .obj
    [("code_review", .obj
        [("disable", .bool c.code_review.disable),
         ("comment_severity_threshold", .str (severityStr c.code_review.comment_severity_threshold)),
         ("max_review_comments", .num c.code_review.max_review_comments),
         ("pull_request_opened", .obj
            [("help", .bool c.code_review.pull_request_opened.help),
             ("summary", .bool c.code_review.pull_request_opened.summary),
             ("code_review", .bool c.code_review.pull_request_opened.code_review),
             ("include_drafts", .bool c.code_review.pull_request_opened.include_drafts)])]),
     ("issue_workflow", .obj
        [("disable", .bool c.issue_workflow.disable),
         ("issue_opened", .obj [("post_dev_help", .bool c.issue_workflow.issue_opened.post_dev_help)]),
         ("triage", .obj
            [("auto", .bool c.issue_workflow.triage.auto),
             ("manual", .bool c.issue_workflow.triage.manual),
             ("update_issue_type", .bool c.issue_workflow.triage.update_issue_type)]),
         ("investigate", .obj
            [("enabled", .bool c.issue_workflow.investigate.enabled),
             ("org_members_only", .bool c.issue_workflow.investigate.org_members_only),
             ("auto_on_bug_label", .bool c.issue_workflow.investigate.auto_on_bug_label)]),
         ("fix", .obj
            [("enabled", .bool c.issue_workflow.fix.enabled),
             ("org_members_only", .bool c.issue_workflow.fix.org_members_only),
             ("require_investigation", .bool c.issue_workflow.fix.require_investigation),
             ("auto_create_pr", .bool c.issue_workflow.fix.auto_create_pr),
             ("auto_run_tests", .bool c.issue_workflow.fix.auto_run_tests)])]),
     ("code_workspace", .obj [("enabled", .bool c.code_workspace.enabled)]),
     ("integrations", .obj
        [("notion", .obj
            ([("enabled", .bool c.integrations.notion.enabled)]
              ++ optEntry "page_id" c.integrations.notion.page_id
              ++ optEntry "database_id" c.integrations.notion.database_id)),
         ("slack", .obj
            ([("enabled", .bool c.integrations.slack.enabled)]
              ++ optEntry "webhook_url" c.integrations.slack.webhook_url
              ++ optEntry "channel" c.integrations.slack.channel))]),
     ("ignore_patterns", .arr (c.ignore_patterns.map Value.str)),
     ("language", .str (languageStr c.language))]

/-! ## Helper lemmas -/

/-- Bind on a successful `Except` computation steps to the continuation. -/
theorem okBind (a : α) (f : α → Except ε β) : (Except.ok a : Except ε α) >>= f = f a := rfl

/-- Bind on a failed `Except` computation short-circuits. -/
theorem errBind (e : ε) (f : α → Except ε β) :
    ((Except.error e : Except ε α) >>= f) = Except.error e := rfl

/-- Decomposition of a successful top-level validation into its six
per-section parses. -/
theorem config_parse_ok_elim (fs : List (String × Value)) (c : Config)
    (h : ConfigSchema.parse (.obj fs) = .ok c) :
    ∃ cr iw cw ints ip lang,
      parseFieldD fs "code_review" CodeReviewConfigSchema.parse defaultCodeReview = .ok cr ∧
      parseFieldD fs "issue_workflow" IssueWorkflowConfigSchema.parse defaultIssueWorkflow = .ok iw ∧
      parseFieldD fs "code_workspace" CodeWorkspaceConfigSchema.parse ⟨true⟩ = .ok cw ∧
      parseFieldD fs "integrations" IntegrationsConfigSchema.parse defaultIntegrations = .ok ints ∧
      parseFieldD fs "ignore_patterns" parseStrArray [] = .ok ip ∧
      parseFieldD fs "language" parseLanguage .ko = .ok lang ∧
      c = ⟨cr, iw, cw, ints, ip, lang⟩ := by
  simp only [ConfigSchema.parse] at h
  cases h1 : parseFieldD fs "code_review" CodeReviewConfigSchema.parse defaultCodeReview with
  | error e => rw [h1, errBind] at h; exact Except.noConfusion h
  | ok cr =>
  rw [h1, okBind] at h
  cases h2 : parseFieldD fs "issue_workflow" IssueWorkflowConfigSchema.parse defaultIssueWorkflow with
  | error e => rw [h2, errBind] at h; exact Except.noConfusion h
  | ok iw =>
  rw [h2, okBind] at h
  cases h3 : parseFieldD fs "code_workspace" CodeWorkspaceConfigSchema.parse ⟨true⟩ with
  | error e => rw [h3, errBind] at h; exact Except.noConfusion h
  | ok cw =>
  rw [h3, okBind] at h
  cases h4 : parseFieldD fs "integrations" IntegrationsConfigSchema.parse defaultIntegrations with
  | error e => rw [h4, errBind] at h; exact Except.noConfusion h
  | ok ints =>
  rw [h4, okBind] at h
  cases h5 : parseFieldD fs "ignore_patterns" parseStrArray [] with
  | error e => rw [h5, errBind] at h; exact Except.noConfusion h
  | ok ip =>
  rw [h5, okBind] at h
  cases h6 : parseFieldD fs "language" parseLanguage .ko with
  | error e => rw [h6, errBind] at h; exact Except.noConfusion h
  | ok lang =>
  rw [h6, okBind] at h
  injection h with h7
  exact ⟨cr, iw, cw, ints, ip, lang, rfl, rfl, rfl, rfl, rfl, rfl, h7.symm⟩

/-- Decomposition of a successful `integrations` section parse. -/
theorem Integrationsconfig_parse_ok_elim (fs : List (String × Value))
    (i : IntegrationsConfig) (h : IntegrationsConfigSchema.parse (.obj fs) = .ok i) :
    ∃ n s,
      parseFieldD fs "notion" NotionConfigSchema.parse defaultNotion = .ok n ∧
      parseFieldD fs "slack" SlackConfigSchema.parse defaultSlack = .ok s ∧
      i = ⟨n, s⟩ := by
  simp only [IntegrationsConfigSchema.parse] at h
  cases h1 : parseFieldD fs "notion" NotionConfigSchema.parse defaultNotion with
  | error e => rw [h1, errBind] at h; exact Except.noConfusion h
  | ok n =>
  rw [h1, okBind] at h
  cases h2 : parseFieldD fs "slack" SlackConfigSchema.parse defaultSlack with
  | error e => rw [h2, errBind] at h; exact Except.noConfusion h
  | ok s =>
  rw [h2, okBind] at h
  injection h with h3
  exact ⟨n, s, rfl, rfl, h3.symm⟩

/-- Decomposition of a successful `notion` sub-section parse. -/
theorem Notionconfig_parse_ok_elim (fs : List (String × Value))
    (n : NotionConfig) (h : NotionConfigSchema.parse (.obj fs) = .ok n) :
    ∃ e p d,
      parseFieldD fs "enabled" parseBool false = .ok e ∧
      parseFieldOpt fs "page_id" parseStr = .ok p ∧
      parseFieldOpt fs "database_id" parseStr = .ok d ∧
      n = ⟨e, p, d⟩ := by
  simp only [NotionConfigSchema.parse] at h
  cases h1 : parseFieldD fs "enabled" parseBool false with
  | error e => rw [h1, errBind] at h; exact Except.noConfusion h
  | ok e =>
  rw [h1, okBind] at h
  cases h2 : parseFieldOpt fs "page_id" parseStr with
  | error er => rw [h2, errBind] at h; exact Except.noConfusion h
  | ok p =>
  rw [h2, okBind] at h
  cases h3 : parseFieldOpt fs "database_id" parseStr with
  | error er => rw [h3, errBind] at h; exact Except.noConfusion h
  | ok d =>
  rw [h3, okBind] at h
  injection h with h4
  exact ⟨e, p, d, rfl, rfl, rfl, h4.symm⟩

/-- Decomposition of a successful `slack` sub-section parse. -/
theorem Slackconfig_parse_ok_elim (fs : List (String × Value))
    (s : SlackConfig) (h : SlackConfigSchema.parse (.obj fs) = .ok s) :
    ∃ e w c,
      parseFieldD fs "enabled" parseBool false = .ok e ∧
      parseFieldOpt fs "webhook_url" parseStr = .ok w ∧
      parseFieldOpt fs "channel" parseStr = .ok c ∧
      s = ⟨e, w, c⟩ := by
  simp only [SlackConfigSchema.parse] at h
  cases h1 : parseFieldD fs "enabled" parseBool false with
  | error e => rw [h1, errBind] at h; exact Except.noConfusion h
  | ok e =>
  rw [h1, okBind] at h
  cases h2 : parseFieldOpt fs "webhook_url" parseStr with
  | error er => rw [h2, errBind] at h; exact Except.noConfusion h
  | ok w =>
  rw [h2, okBind] at h
  cases h3 : parseFieldOpt fs "channel" parseStr with
  | error er => rw [h3, errBind] at h; exact Except.noConfusion h
  | ok c =>
  rw [h3, okBind] at h
  injection h with h4
  exact ⟨e, w, c, rfl, rfl, rfl, h4.symm⟩

/-- An absent key makes a defaulted field parse yield the default. -/
theorem parseFieldD_absent (fs : List (String × Value)) (k : String)
    (p : Value → Except String α) (d : α) (h : getField fs k = none) :
    parseFieldD fs k p d = .ok d := by
  unfold parseFieldD
  rw [h]

/-- A present key makes a defaulted field parse run the inner schema. -/
theorem parseFieldD_present (fs : List (String × Value)) (k : String)
    (p : Value → Except String α) (d : α) (v : Value) (h : getField fs k = some v) :
    parseFieldD fs k p d = p v := by
  unfold parseFieldD
  rw [h]

/-! ## Claims -/

/-- C1: every Config produced by validation carries an integrations
section (its type makes the section structurally present); when the raw
document omits `integrations`, the section takes its full default, and
when the raw document supplies `integrations` objects but omits the
`enabled` flags (or the whole `notion`/`slack` sub-objects), those
default to false. -/
theorem validate_integrations_defaults (fs : List (String × Value)) (c : Config)
    (h : ConfigSchema.parse (.obj fs) = .ok c) :
    (getField fs "integrations" = none →
      c.integrations = defaultIntegrations ∧
      c.integrations.notion.enabled = false ∧ c.integrations.slack.enabled = false) ∧
    (∀ ifs, getField fs "integrations" = some (.obj ifs) →
      (getField ifs "notion" = none → c.integrations.notion = defaultNotion) ∧
      (getField ifs "slack" = none → c.integrations.slack = defaultSlack) ∧
      (∀ nfs, getField ifs "notion" = some (.obj nfs) → getField nfs "enabled" = none →
        c.integrations.notion.enabled = false) ∧
      (∀ sfs, getField ifs "slack" = some (.obj sfs) → getField sfs "enabled" = none →
        c.integrations.slack.enabled = false)) := by
  obtain ⟨cr, iw, cw, ints, ip, lang, _, _, _, h4, _, _, hc⟩ :=
    config_parse_ok_elim fs c h
  subst hc
  constructor
  · intro habs
    rw [parseFieldD_absent _ _ _ _ habs] at h4
    injection h4 with h4
    subst h4
    exact ⟨rfl, rfl, rfl⟩
  · intro ifs hpres
    rw [parseFieldD_present _ _ _ _ _ hpres] at h4
    obtain ⟨n, s, hn, hs, hi⟩ := Integrationsconfig_parse_ok_elim ifs ints h4
    subst hi
    refine ⟨?_, ?_, ?_, ?_⟩
    · intro hnabs
      rw [parseFieldD_absent _ _ _ _ hnabs] at hn
      injection hn with hn
      simp [hn]
    · intro hsabs
      rw [parseFieldD_absent _ _ _ _ hsabs] at hs
      injection hs with hs
      simp [hs]
    · intro nfs hnpres henabs
      rw [parseFieldD_present _ _ _ _ _ hnpres] at hn
      obtain ⟨e, p, d, he, _, _, hnn⟩ := Notionconfig_parse_ok_elim nfs n hn
      rw [parseFieldD_absent _ _ _ _ henabs] at he
      injection he with he
      simp [hnn, ← he]
    · intro sfs hspres henabs
      rw [parseFieldD_present _ _ _ _ _ hspres] at hs
      obtain ⟨e, w, ch, he, _, _, hss⟩ := Slackconfig_parse_ok_elim sfs s hs
      rw [parseFieldD_absent _ _ _ _ henabs] at he
      injection he with he
      simp [hss, ← he]

/-- Witness for C1 at the empty document. -/
theorem validate_integrations_defaults_witness :
    DEFAULT_CONFIG.integrations = defaultIntegrations ∧
    DEFAULT_CONFIG.integrations.notion.enabled = false ∧
    DEFAULT_CONFIG.integrations.slack.enabled = false :=
  (validate_integrations_defaults [] DEFAULT_CONFIG rfl).1 rfl

/-- C2: validating the empty document succeeds and yields exactly the
canonical default instance `DEFAULT_CONFIG`. -/
theorem validate_empty_eq_default : ConfigSchema.parse (.obj []) = .ok DEFAULT_CONFIG := rfl

/-- C3: `loadConfigFromGitHub` returns `DEFAULT_CONFIG` on a 404, on any
other thrown remote error, on a response without usable content, on a
decode/parse failure, and on a validation failure; its return type
(`Config`, not an error-carrying type) propagates no error at all. -/
theorem loadConfigFromGitHub_error_policy :
    loadConfigFromGitHub (.failure (some 404)) = DEFAULT_CONFIG ∧
    (∀ st, loadConfigFromGitHub (.failure st) = DEFAULT_CONFIG) ∧
    loadConfigFromGitHub .noContent = DEFAULT_CONFIG ∧
    (∀ e, loadConfigFromGitHub (.content (.error e)) = DEFAULT_CONFIG) ∧
    (∀ v, (ConfigSchema.parse v).isOk = false →
      loadConfigFromGitHub (.content (.ok v)) = DEFAULT_CONFIG) := by
  refine ⟨rfl, fun st => rfl, rfl, fun e => rfl, fun v hv => ?_⟩
  simp only [loadConfigFromGitHub]
  cases hp : ConfigSchema.parse v with
  | ok c => rw [hp] at hv; exact Bool.noConfusion hv
  | error e => rfl

/-- Witness for C3: a non-404 failure and a validation failure both
yield the default config. -/
theorem loadConfigFromGitHub_error_policy_witness :
    loadConfigFromGitHub (.failure (some 500)) = DEFAULT_CONFIG ∧
    loadConfigFromGitHub (.content (.ok (.bool true))) = DEFAULT_CONFIG :=
  ⟨loadConfigFromGitHub_error_policy.2.1 (some 500),
   loadConfigFromGitHub_error_policy.2.2.2.2 (.bool true) rfl⟩

/-- C4: `loadConfig` returns the canonical default instance when the
file is absent (not an error), and when the file is present but fails
YAML parsing or schema validation it fails with an error naming the
resolved path and the underlying cause. -/
theorem loadConfig_policy (repoPath msg : String) (v : Value) (e : String)
    (hval : ConfigSchema.parse v = .error e) :
    loadConfig repoPath .absent = .ok DEFAULT_CONFIG ∧
    loadConfig repoPath (.present (.error msg)) =
      .error ("Failed to load config from " ++ configPathOf repoPath ++ ": " ++ msg) ∧
    loadConfig repoPath (.present (.ok v)) =
      .error ("Failed to load config from " ++ configPathOf repoPath ++ ": " ++ e) := by
  refine ⟨rfl, rfl, ?_⟩
  simp only [loadConfig]
  rw [hval]

/-- Witness for C4 at a document with the invalid enum value `fr` for
`language`. -/
theorem loadConfig_policy_witness :
    loadConfig "/repo" .absent = .ok DEFAULT_CONFIG ∧
    loadConfig "/repo" (.present (.error "bad yaml")) =
      .error ("Failed to load config from " ++ configPathOf "/repo" ++ ": " ++ "bad yaml") ∧
    loadConfig "/repo" (.present (.ok (.obj [("language", .str "fr")]))) =
      .error ("Failed to load config from " ++ configPathOf "/repo" ++ ": " ++ "invalid language") :=
  loadConfig_policy "/repo" "bad yaml" (.obj [("language", .str "fr")]) "invalid language" rfl

/-- C5: `generateConfig` overrides exactly `language` (when provided),
`code_review.disable` (true iff `enableCodeReview` is explicitly false)
and `issue_workflow.disable` (true iff `enableIssueWorkflow` is
explicitly false); every other field keeps its canonical default.  The
operation is total, hence never fails. -/
theorem generateConfig_spec (opts : GenerateConfigOptions) :
    (generateConfig opts).language = opts.language.getD DEFAULT_CONFIG.language ∧
    ((generateConfig opts).code_review.disable = true ↔ opts.enableCodeReview = some false) ∧
    ((generateConfig opts).issue_workflow.disable = true ↔ opts.enableIssueWorkflow = some false) ∧
    (generateConfig opts).code_review.comment_severity_threshold =
      DEFAULT_CONFIG.code_review.comment_severity_threshold ∧
    (generateConfig opts).code_review.max_review_comments =
      DEFAULT_CONFIG.code_review.max_review_comments ∧
    (generateConfig opts).code_review.pull_request_opened =
      DEFAULT_CONFIG.code_review.pull_request_opened ∧
    (generateConfig opts).issue_workflow.issue_opened =
      DEFAULT_CONFIG.issue_workflow.issue_opened ∧
    (generateConfig opts).issue_workflow.triage = DEFAULT_CONFIG.issue_workflow.triage ∧
    (generateConfig opts).issue_workflow.investigate =
      DEFAULT_CONFIG.issue_workflow.investigate ∧
    (generateConfig opts).issue_workflow.fix = DEFAULT_CONFIG.issue_workflow.fix ∧
    (generateConfig opts).code_workspace = DEFAULT_CONFIG.code_workspace ∧
    (generateConfig opts).integrations = DEFAULT_CONFIG.integrations ∧
    (generateConfig opts).ignore_patterns = DEFAULT_CONFIG.ignore_patterns := by
  refine ⟨rfl, ?_, ?_, rfl, rfl, rfl, rfl, rfl, rfl, rfl, rfl, rfl, rfl⟩
  · simp [generateConfig]
  · simp [generateConfig]

/-- C6: round-trip — serializing any generated Config and re-validating
the parsed document yields the same Config. -/
theorem generate_roundtrip (opts : GenerateConfigOptions) :
    ConfigSchema.parse (dumpConfig (generateConfig opts)) = .ok (generateConfig opts) := by
  rcases opts with ⟨l, a, b⟩
  rcases l with _ | l <;> rcases a with _ | a <;> rcases b with _ | b <;>
    (try cases l) <;> (try cases a) <;> (try cases b) <;> rfl

/-- C7: a true `issue_workflow.disable` forces `isAutoTriageEnabled`,
`isInvestigateEnabled`, `isFixEnabled` and
`shouldAutoInvestigateOnBugLabel` to false regardless of the
sub-feature flags. -/
theorem issue_workflow_disable_gates (cfg : Config)
    (h : cfg.issue_workflow.disable = true) :
    isAutoTriageEnabled cfg = false ∧
    isInvestigateEnabled cfg = false ∧
    isFixEnabled cfg = false ∧
    shouldAutoInvestigateOnBugLabel cfg = false := by
  simp [isAutoTriageEnabled, isInvestigateEnabled, isFixEnabled,
    shouldAutoInvestigateOnBugLabel, h]

/-- Witness for C7 at a config with the workflow disabled and every
sub-feature flag (triage.auto, investigate.enabled, fix.enabled,
investigate.auto_on_bug_label) switched on. -/
theorem issue_workflow_disable_gates_witness :
    isAutoTriageEnabled
        { DEFAULT_CONFIG with issue_workflow :=
          { defaultIssueWorkflow with disable := true, investigate := ⟨true, true, true⟩ } }
      = false ∧
    isInvestigateEnabled
        { DEFAULT_CONFIG with issue_workflow :=
          { defaultIssueWorkflow with disable := true, investigate := ⟨true, true, true⟩ } }
      = false ∧
    isFixEnabled
        { DEFAULT_CONFIG with issue_workflow :=
          { defaultIssueWorkflow with disable := true, investigate := ⟨true, true, true⟩ } }
      = false ∧
    shouldAutoInvestigateOnBugLabel
        { DEFAULT_CONFIG with issue_workflow :=
          { defaultIssueWorkflow with disable := true, investigate := ⟨true, true, true⟩ } }
      = false :=
  issue_workflow_disable_gates
    { DEFAULT_CONFIG with issue_workflow :=
      { defaultIssueWorkflow with disable := true, investigate := ⟨true, true, true⟩ } } rfl

/-- C8 counterexample: `null` is NOT treated like an absent key — the
empty document validates to the defaults, but `code_review: null`
(an optional-in-source section set to null) fails validation. -/
theorem null_not_absent_counterexample :
    (ConfigSchema.parse (.obj [("code_review", Value.null)])).isOk = false ∧
    ConfigSchema.parse (.obj []) = .ok DEFAULT_CONFIG :=
  ⟨rfl, rfl⟩

/-- C8 amended: a `null` value for an optional-in-source field is
rejected by validation (at section level, nested level, and for
optional string fields), while the absent field defaults. -/
theorem null_rejected :
    (ConfigSchema.parse (.obj [("code_review", Value.null)])).isOk = false ∧
    (ConfigSchema.parse (.obj [("issue_workflow", Value.null)])).isOk = false ∧
    (ConfigSchema.parse (.obj [("code_workspace", Value.null)])).isOk = false ∧
    (ConfigSchema.parse (.obj [("integrations", Value.null)])).isOk = false ∧
    (ConfigSchema.parse
      (.obj [("code_review", .obj [("pull_request_opened", Value.null)])])).isOk = false ∧
    (ConfigSchema.parse
      (.obj [("integrations", .obj [("notion", .obj [("page_id", Value.null)])])])).isOk
      = false ∧
    ConfigSchema.parse (.obj []) = .ok DEFAULT_CONFIG :=
  ⟨rfl, rfl, rfl, rfl, rfl, rfl, rfl⟩

/-- C9 counterexample: the schema does not reject negative values other
than -1 — `max_review_comments: -5` validates successfully (and is kept
verbatim). -/
theorem negative_comments_accepted_counterexample :
    ConfigSchema.parse (.obj [("code_review", .obj [("max_review_comments", .num (-5))])])
      = .ok { DEFAULT_CONFIG with
          code_review := { defaultCodeReview with max_review_comments := -5 } } := rfl

/-- C9 amended: `max_review_comments` is validated as a bare number —
every integer (-1, any value ≥ 0, and any other negative value alike)
is accepted and kept verbatim. -/
theorem max_review_comments_accepts_all (n : Int) :
    ConfigSchema.parse (.obj [("code_review", .obj [("max_review_comments", .num n)])])
      = .ok { DEFAULT_CONFIG with
          code_review := { defaultCodeReview with max_review_comments := n } } := rfl

/-- C10: `shouldUpdateIssueType` projects
`issue_workflow.triage.update_issue_type` directly, with no gating on
the workflow-level disable flag: it returns true on a disabled workflow
whose `update_issue_type` is true. -/
theorem shouldUpdateIssueType_ungated (cfg : Config) :
    shouldUpdateIssueType cfg = cfg.issue_workflow.triage.update_issue_type ∧
    (cfg.issue_workflow.disable = true →
      cfg.issue_workflow.triage.update_issue_type = true →
      shouldUpdateIssueType cfg = true) :=
  ⟨rfl, fun _ h => h⟩

/-- Witness for C10: a disabled workflow with `update_issue_type` on
still answers true. -/
theorem shouldUpdateIssueType_ungated_witness :
    shouldUpdateIssueType
        { DEFAULT_CONFIG with issue_workflow := { defaultIssueWorkflow with disable := true } }
      = true :=
  (shouldUpdateIssueType_ungated
    { DEFAULT_CONFIG with issue_workflow := { defaultIssueWorkflow with disable := true } }).2
    rfl rfl

end PleaseConfig
